import Mathlib

/-!
Shallow embedding of the rqlite Sqlite adapter (src/src/index.js) of
chaos-database-rqlite, together with theorems checking its specification.

The adapter keeps three mutable fields: the client handle, the connectivity
flag and the last-insert-id slot.  Promises are modelled by an outcome type
that distinguishes a resolved value, a rejected message, and a promise that
never settles (which happens when an exception or rejection is lost on a
promise chain that has no catch handler).
-/

namespace RqliteAdapter

/-- The single-quote character, used by the default-value regex of fields(). -/
def squote : Char := Char.ofNat 39

/-- The double-quote character, used by the sqlite_master introspection match. -/
def dquote : Char := Char.ofNat 34

/-- A backend row: an opaque record of column-name / value pairs. -/
abbrev Row := List (String × String)

/-- One element of res.body.results as returned by the rqlite data API:
it may carry an error string, row data, and a last_insert_id. -/
structure BackendResult where
  error : Option String
  rows : List Row
  last_insert_id : Option Int
deriving DecidableEq

/-- The body of a backend response: res.body.results. -/
structure BackendResponse where
  results : List BackendResult
deriving DecidableEq

/-- Modelled from the spec: getError comes from rqlite-js (not under src/);
per the spec the backend-reported SQL error is surfaced with its original
message text preserved, so it is the first error found among the results. -/
def getError (results : List BackendResult) : Option String :=
  (results.filterMap (fun r => r.error)).head?

/-- Modelled from the spec: toPlainJs comes from rqlite-js (not under src/);
per the spec it materializes the row payload of the backend results into
plain-JS rows (a JS array, hence always truthy). -/
def toPlainJs (results : List BackendResult) : List Row :=
  (results.map (fun r => r.rows)).flatten

/-- The client operation a statement is routed to (client.select,
client.insert, client.update, client.delete, client.table.create,
client.table.drop). -/
inductive Method
  | select
  | insert
  | update
  | delete
  | tableCreate
  | tableDrop
deriving DecidableEq

/-- Embedding of the JS test sql.match(/^(KW)/i): the statement starts,
at position 0, with the keyword, compared case-insensitively.  Note the
regexes in query() are anchored at position 0 and skip no whitespace. -/
def kwMatches (kw : String) (sql : String) : Bool :=
  (kw.data.map Char.toLower).isPrefixOf (sql.data.map Char.toLower)

/-- The keyword classification of query() (src/src/index.js lines 217-238):
a chain of independent if-statements, a later match overwriting an earlier
one; when no pattern matches, the method variable stays undefined. -/
def classify (sql : String) : Option Method :=
  let m0 : Option Method := none
  let m1 := if kwMatches "SELECT" sql || kwMatches "PRAGMA" sql then some Method.select else m0
  let m2 := if kwMatches "INSERT" sql then some Method.insert else m1
  let m3 := if kwMatches "UPDATE" sql then some Method.update else m2
  let m4 := if kwMatches "DELETE" sql then some Method.delete else m3
  let m5 := if kwMatches "CREATE TABLE" sql then some Method.tableCreate else m4
  let m6 := if kwMatches "DROP TABLE" sql then some Method.tableDrop else m5
  m6

/-- The configuration fields of the adapter that the claims touch. -/
structure Config where
  database : Option String
  client : Option Nat
deriving DecidableEq

/-- The mutable state of an adapter instance: this._client,
this._connected and this._lastInsertId.  A client handle is opaque and
modelled by a Nat identifier; undefined slots are none. -/
structure State where
  client : Option Nat
  connected : Bool
  lastInsertId : Option Int
deriving DecidableEq

/-- The constructor (src/src/index.js lines 74-81): stores config.client in
this._client, sets this._connected to false; this._lastInsertId starts
undefined. -/
def initState (cfg : Config) : State :=
  { client := cfg.client, connected := false, lastInsertId := none }

/-- JS truthiness of the check if (!config.database): undefined and the
empty string are falsy. -/
def falsyDatabase : Option String → Bool
  | none => true
  | some s => s == ""

/-- The backend collaborator: the connect(database) primitive of
rqlite-js, and the per-method statement execution, each either resolving
or rejecting. -/
structure Backend where
  connectResult : String → Except String Nat
  respond : Method → String → Except String BackendResponse

/-- Embedding of connect() (src/src/index.js lines 120-145): return the
existing client if present; reject without I/O when no database name is
configured; otherwise open the backend, storing the handle and setting the
connectivity flag on success, and leaving the state untouched on failure. -/
def connect (cfg : Config) (b : Backend) (s : State) : Except String Nat × State :=
  match s.client with
  | some c => (Except.ok c, s)
  | none =>
    if falsyDatabase cfg.database then
      (Except.error "Error, no database name has been configured.", s)
    else
      match b.connectResult (cfg.database.getD "") with
      | Except.ok api => (Except.ok api, { s with client := some api, connected := true })
      | Except.error e => (Except.error e, s)

/-- What a settled query() promise carries: a Cursor over rows
(accept(new cursor)), the boolean true (accept(true)), or the raw plain-JS
rows of the sqlite_master early accept. -/
inductive QueryResult
  | cursor (data : List Row)
  | ok
  | raw (rows : List Row)
deriving DecidableEq

/-- The fate of the promise returned by query(): resolved, rejected, or
never settled (an exception or rejection lost on an unhandled chain). -/
inductive QueryOutcome
  | resolved (v : QueryResult)
  | rejected (msg : String)
  | pending
deriving DecidableEq

/-- The literal prefix tested at line 248: SELECT "sql" FROM "sqlite_master"
(the quotes are part of the statement text). -/
def sqliteMasterHead : String :=
  String.mk ("SELECT ".data ++ [dquote] ++ "sql".data ++ [dquote]
    ++ " FROM ".data ++ [dquote] ++ "sqlite_master".data ++ [dquote])

/-- The message of the TypeError raised by reading last_insert_id from
undefined when res.body.results is empty; since that throw happens inside
the callback of method(sql).then, the chained catch turns it into a
rejection of the query promise. -/
def emptyResultsTypeError : String :=
  String.mk ("Cannot read properties of undefined (reading ".data
    ++ [squote] ++ "last_insert_id".data ++ [squote] ++ ")".data)

/-- Embedding of query() (src/src/index.js lines 176-267).
Branches, in source order:
* connect() rejection: the chain self.connect().then(cb) has no catch, so
  the promise returned by query never settles;
* no keyword matched: method is undefined and method(sql) throws a
  TypeError inside the connect-then callback, before the
  method(sql).then(...).catch(...) chain is ever built, so the rejection
  is unhandled and the promise never settles;
* method(sql) rejected: the catch calls response(error, null, undefined),
  which rejects with the backend error and leaves the slot untouched;
* empty results: res.body.results[0].last_insert_id throws inside the
  then-callback; the chained catch handles it and rejects the promise
  with the TypeError, leaving the slot untouched;
* otherwise the sqlite_master early accept fires first when its prefix
  matches, then response() runs: on a backend error it rejects (a no-op if
  already accepted); on success it assigns this._lastInsertId
  unconditionally, because the guard typeof lastId !== undefined compares
  the string returned by typeof against the undefined value and is always
  true, and then accepts true for insert and a Cursor otherwise (toPlainJs
  yields a JS array, which is truthy even when empty). -/
def query (cfg : Config) (b : Backend) (sql : String) (s : State) :
    QueryOutcome × State :=
  match connect cfg b s with
  | (Except.error _, s1) => (QueryOutcome.pending, s1)
  | (Except.ok _, s1) =>
    match classify sql with
    | none => (QueryOutcome.pending, s1)
    | some m =>
      match b.respond m sql with
      | Except.error e => (QueryOutcome.rejected e, s1)
      | Except.ok res =>
        match res.results.head? with
        | none => (QueryOutcome.rejected emptyResultsTypeError, s1)
        | some r0 =>
          let error := getError res.results
          let result := toPlainJs res.results
          let lastID := r0.last_insert_id
          let early : Option QueryOutcome :=
            if kwMatches sqliteMasterHead sql then
              some (QueryOutcome.resolved (QueryResult.raw (toPlainJs res.results)))
            else none
          match error with
          | some e => (early.getD (QueryOutcome.rejected e), s1)
          | none =>
            let s2 := { s1 with lastInsertId := lastID }
            let v : QueryResult :=
              if m = Method.insert then QueryResult.ok else QueryResult.cursor result
            (early.getD (QueryOutcome.resolved v), s2)

/-- Embedding of disconnect() (src/src/index.js lines 384-392): return true
immediately when no client exists; otherwise drop the handle reference and
clear the connectivity flag, returning true. -/
def disconnect (s : State) : Bool × State :=
  match s.client with
  | none => (true, s)
  | some _ => (true, { s with client := none, connected := false })

/-- A method invocation on the client handle. -/
inductive ClientCall
  | close
deriving DecidableEq

/-- The client-method invocations performed by disconnect(): none, because
the line this._client.close() is commented out in the source (line 388). -/
def disconnectClientCalls (_s : State) : List ClientCall := []

/-- A raw column record as consumed by the loop in fields(): column name,
native type string, default literal (dflt_value, null or a string) and the
not-null flag notnull (a number, 0 or 1 as reported by sqlite). -/
structure RawColumn where
  name : String
  type : String
  dflt_value : Option String
  notnull : Int
deriving DecidableEq

/-- The JS values a normalized default can take. -/
inductive JSVal
  | null
  | str (s : String)
  | bool (b : Bool)
deriving DecidableEq

/-- A nullable string as a JS value. -/
def jsOfOpt : Option String → JSVal
  | none => JSVal.null
  | some s => JSVal.str s

/-- The characters the JS regex dot does not match: the line terminators
LF, CR, LINE SEPARATOR and PARAGRAPH SEPARATOR. -/
def isLineTerm (ch : Char) : Bool :=
  ch = Char.ofNat 10 || ch = Char.ofNat 13 || ch = Char.ofNat 8232 || ch = Char.ofNat 8233

/-- JS regex match of the pattern caret-quote-group-quote used on string
defaults: requires a single quote at position 0; the greedy dot-star group
can only run over non-line-terminator characters, so it extends to the
last quote inside the maximal terminator-free run after the opening quote
(and the match fails when that run holds no quote); returns the group. -/
def matchOuterQuotes : List Char → Option (List Char)
  | [] => none
  | c :: rest =>
    if c = squote then
      let run := rest.takeWhile (fun ch => !(isLineTerm ch))
      match run.reverse.dropWhile (fun ch => ch ≠ squote) with
      | [] => none
      | _ :: r => some r.reverse
    else none

/-- The default-value normalization of the switch in fields()
(src/src/index.js lines 327-340), parametrized by the mapped logical type
(dialect().mapped belongs to the dialect collaborator, outside src/):
a string default has the regex group substituted when the quote pattern
matches; a boolean default becomes the strict equality test against the
literal 1; a datetime default equal to CURRENT_TIMESTAMP becomes null;
every other type keeps the raw default. -/
def normalizeDefault (ltype : String) (dflt : Option String) : JSVal :=
  if ltype = "string" then
    match dflt with
    | some s =>
      match matchOuterQuotes s.data with
      | some inner => JSVal.str (String.mk inner)
      | none => JSVal.str s
    | none => JSVal.null
  else if ltype = "boolean" then
    JSVal.bool (dflt == some "1")
  else if ltype = "datetime" then
    if dflt = some "CURRENT_TIMESTAMP" then JSVal.null else jsOfOpt dflt
  else jsOfOpt dflt

/-- The parts of the per-column descriptor assembled in fields()
(lines 342-346) that the claims are about. -/
structure FieldDescr where
  nullable : Bool
  dflt : JSVal
deriving DecidableEq

/-- One iteration of the loop in fields(): the null key is the ternary
column.notnull === 0 ? true : false, the default key is the normalized
default for the mapped logical type. -/
def processColumn (ltype : String) (col : RawColumn) : FieldDescr :=
  { nullable := if col.notnull = 0 then true else false,
    dflt := normalizeDefault ltype col.dflt_value }

/-- The JS value returned by execute(sql): its body this.query(sql) has no
return statement, so the promise is dropped and undefined is returned. -/
inductive ExecReturn
  | undefined
  | promise (settled : QueryOutcome)
deriving DecidableEq

/-- Embedding of execute() (src/src/index.js lines 275-277): invokes
query(sql), whose state effects happen, but returns undefined instead of
the promise. -/
def execute (cfg : Config) (b : Backend) (sql : String) (s : State) :
    ExecReturn × State :=
  (ExecReturn.undefined, (query cfg b sql s).2)

/-- Embedding of openTransaction() (lines 163-165): returns the value of
this.execute applied to BEGIN TRANSACTION. -/
def openTransaction (cfg : Config) (b : Backend) (s : State) : ExecReturn × State :=
  execute cfg b "BEGIN TRANSACTION" s

/-- The connectivity invariant: the flag is true only with a client handle
present. -/
def Inv (s : State) : Prop := s.connected = true → (s.client).isSome = true

/-! ## Helper lemmas about keyword matching -/

theorem kwMatches_iff (kw sql : String) :
    kwMatches kw sql = true ↔
      (kw.data.map Char.toLower) <+: (sql.data.map Char.toLower) := by
  simp [kwMatches]

theorem kwMatches_append (kw : String) (p r : List Char)
    (h : p.map Char.toLower = kw.data.map Char.toLower) :
    kwMatches kw (String.mk (p ++ r)) = true := by
  rw [kwMatches_iff]
  have hd : (String.mk (p ++ r)).data = p ++ r := rfl
  rw [hd, List.map_append, h]
  exact List.prefix_append _ _

theorem kwMatches_cases (kw : String) (p r : List Char)
    (h : kwMatches kw (String.mk (p ++ r)) = true) :
    (kw.data.map Char.toLower) <+: (p.map Char.toLower) ∨
      (p.map Char.toLower) <+: (kw.data.map Char.toLower) := by
  rw [kwMatches_iff] at h
  have hd : (String.mk (p ++ r)).data = p ++ r := rfl
  rw [hd, List.map_append] at h
  rcases Nat.le_total (kw.data.map Char.toLower).length (p.map Char.toLower).length
      with hle | hle
  · exact Or.inl (List.prefix_of_prefix_length_le h (List.prefix_append _ _) hle)
  · exact Or.inr (List.prefix_of_prefix_length_le (List.prefix_append _ _) h hle)

theorem kwMatches_append_false (kw : String) (p r low : List Char)
    (h : p.map Char.toLower = low)
    (h1 : ¬ ((kw.data.map Char.toLower) <+: low))
    (h2 : ¬ (low <+: (kw.data.map Char.toLower))) :
    kwMatches kw (String.mk (p ++ r)) = false := by
  by_contra hb
  rw [Bool.not_eq_false] at hb
  rcases kwMatches_cases kw p r hb with hc | hc
  · rw [h] at hc; exact h1 hc
  · rw [h] at hc; exact h2 hc

theorem kwMatches_cons_false (k : Char) (t : List Char) (kw : String)
    (c : Char) (cs : List Char)
    (hkw : kw.data.map Char.toLower = k :: t)
    (hk : k ≠ Char.toLower c) :
    kwMatches kw (String.mk (c :: cs)) = false := by
  by_contra h
  rw [Bool.not_eq_false, kwMatches_iff, hkw] at h
  have hd : (String.mk (c :: cs)).data.map Char.toLower
      = Char.toLower c :: cs.map Char.toLower := rfl
  rw [hd, List.cons_prefix_cons] at h
  exact hk h.1

theorem classify_leading_space (sql : String) :
    classify (String.mk (Char.ofNat 32 :: sql.data)) = none := by
  have h1 := kwMatches_cons_false 's' "elect".data "SELECT"
    (Char.ofNat 32) sql.data (by decide) (by decide)
  have h2 := kwMatches_cons_false 'p' "ragma".data "PRAGMA"
    (Char.ofNat 32) sql.data (by decide) (by decide)
  have h3 := kwMatches_cons_false 'i' "nsert".data "INSERT"
    (Char.ofNat 32) sql.data (by decide) (by decide)
  have h4 := kwMatches_cons_false 'u' "pdate".data "UPDATE"
    (Char.ofNat 32) sql.data (by decide) (by decide)
  have h5 := kwMatches_cons_false 'd' "elete".data "DELETE"
    (Char.ofNat 32) sql.data (by decide) (by decide)
  have h6 := kwMatches_cons_false 'c' "reate table".data "CREATE TABLE"
    (Char.ofNat 32) sql.data (by decide) (by decide)
  have h7 := kwMatches_cons_false 'd' "rop table".data "DROP TABLE"
    (Char.ofNat 32) sql.data (by decide) (by decide)
  simp [classify, h1, h2, h3, h4, h5, h6, h7]

theorem kwMatches_of_master (kw sql : String)
    (h : kwMatches sqliteMasterHead sql = true)
    (hp : (kw.data.map Char.toLower) <+: (sqliteMasterHead.data.map Char.toLower)) :
    kwMatches kw sql = true := by
  rw [kwMatches_iff] at h ⊢
  exact hp.trans h

theorem kwMatches_false_of_master (kw sql : String)
    (h : kwMatches sqliteMasterHead sql = true)
    (hlen : (kw.data.map Char.toLower).length
      ≤ (sqliteMasterHead.data.map Char.toLower).length)
    (hnp : ¬ ((kw.data.map Char.toLower) <+: (sqliteMasterHead.data.map Char.toLower))) :
    kwMatches kw sql = false := by
  by_contra hb
  rw [Bool.not_eq_false, kwMatches_iff] at hb
  rw [kwMatches_iff] at h
  exact hnp (List.prefix_of_prefix_length_le hb h hlen)

/-- A statement starting with the sqlite_master introspection text starts
with SELECT and with nothing else, so it is routed to client.select. -/
theorem classify_of_master (sql : String)
    (h : kwMatches sqliteMasterHead sql = true) :
    classify sql = some Method.select := by
  have hs := kwMatches_of_master "SELECT" sql h (by decide)
  have h3 := kwMatches_false_of_master "INSERT" sql h (by decide) (by decide)
  have h4 := kwMatches_false_of_master "UPDATE" sql h (by decide) (by decide)
  have h5 := kwMatches_false_of_master "DELETE" sql h (by decide) (by decide)
  have h6 := kwMatches_false_of_master "CREATE TABLE" sql h (by decide) (by decide)
  have h7 := kwMatches_false_of_master "DROP TABLE" sql h (by decide) (by decide)
  simp [classify, hs, h3, h4, h5, h6, h7]

/-- connect() short-circuits on an existing handle. -/
theorem connect_existing (cfg : Config) (b : Backend) (s : State) (c : Nat)
    (h : s.client = some c) : connect cfg b s = (Except.ok c, s) := by
  simp [connect, h]

/-- The state after query() differs from the state after the inner
connect() at most in the last-insert-id slot. -/
theorem query_state_shape (cfg : Config) (b : Backend) (sql : String) (s : State) :
    ∃ li, (query cfg b sql s).2 = { (connect cfg b s).2 with lastInsertId := li } := by
  unfold query
  rcases hcon : connect cfg b s with ⟨r, s1⟩
  cases r with
  | error e => exact ⟨s1.lastInsertId, by simp⟩
  | ok c =>
    cases hcl : classify sql with
    | none => exact ⟨s1.lastInsertId, by simp [hcl]⟩
    | some m =>
      cases hr : b.respond m sql with
      | error e => exact ⟨s1.lastInsertId, by simp [hcl, hr]⟩
      | ok res =>
        cases hh : res.results.head? with
        | none => exact ⟨s1.lastInsertId, by simp [hcl, hr, hh]⟩
        | some r0 =>
          cases hg : getError res.results with
          | some e => exact ⟨s1.lastInsertId, by simp [hcl, hr, hh, hg]⟩
          | none => exact ⟨r0.last_insert_id, by simp [hcl, hr, hh, hg]⟩

/-! ## Claim theorems -/

/-- C2 counterexample: classification is not invariant under leading
whitespace: a SELECT statement preceded by a single space matches no
category, while the same statement without it is routed to select, so a
statement preceded by whitespace is not classified the same. -/
theorem C2_leading_space_cex :
    classify " SELECT 1" = none ∧ classify "SELECT 1" = some Method.select := by
  decide

/-- C2 amended: query() classifies the statement by its leading keyword
case-insensitively, but the keyword must stand at the very start of the
string: leading whitespace is not skipped, and a statement preceded by
whitespace matches no category.  SELECT and PRAGMA route to select, INSERT
to insert, UPDATE to update, DELETE to delete, CREATE TABLE to
table-create, DROP TABLE to table-drop. -/
theorem C2_classify_routing (p : List Char) (r : String) :
    (p.map Char.toLower = "select".data →
      classify (String.mk (p ++ r.data)) = some Method.select) ∧
    (p.map Char.toLower = "pragma".data →
      classify (String.mk (p ++ r.data)) = some Method.select) ∧
    (p.map Char.toLower = "insert".data →
      classify (String.mk (p ++ r.data)) = some Method.insert) ∧
    (p.map Char.toLower = "update".data →
      classify (String.mk (p ++ r.data)) = some Method.update) ∧
    (p.map Char.toLower = "delete".data →
      classify (String.mk (p ++ r.data)) = some Method.delete) ∧
    (p.map Char.toLower = "create table".data →
      classify (String.mk (p ++ r.data)) = some Method.tableCreate) ∧
    (p.map Char.toLower = "drop table".data →
      classify (String.mk (p ++ r.data)) = some Method.tableDrop) ∧
    classify (String.mk (Char.ofNat 32 :: r.data)) = none := by
  refine ⟨?_, ?_, ?_, ?_, ?_, ?_, ?_, classify_leading_space r⟩
  · intro h
    have hk := kwMatches_append "SELECT" p r.data (h.trans (by decide))
    have n3 := kwMatches_append_false "INSERT" p r.data _ h (by decide) (by decide)
    have n4 := kwMatches_append_false "UPDATE" p r.data _ h (by decide) (by decide)
    have n5 := kwMatches_append_false "DELETE" p r.data _ h (by decide) (by decide)
    have n6 := kwMatches_append_false "CREATE TABLE" p r.data _ h (by decide) (by decide)
    have n7 := kwMatches_append_false "DROP TABLE" p r.data _ h (by decide) (by decide)
    simp [classify, hk, n3, n4, n5, n6, n7]
  · intro h
    have hk := kwMatches_append "PRAGMA" p r.data (h.trans (by decide))
    have n3 := kwMatches_append_false "INSERT" p r.data _ h (by decide) (by decide)
    have n4 := kwMatches_append_false "UPDATE" p r.data _ h (by decide) (by decide)
    have n5 := kwMatches_append_false "DELETE" p r.data _ h (by decide) (by decide)
    have n6 := kwMatches_append_false "CREATE TABLE" p r.data _ h (by decide) (by decide)
    have n7 := kwMatches_append_false "DROP TABLE" p r.data _ h (by decide) (by decide)
    simp [classify, hk, n3, n4, n5, n6, n7]
  · intro h
    have hk := kwMatches_append "INSERT" p r.data (h.trans (by decide))
    have n4 := kwMatches_append_false "UPDATE" p r.data _ h (by decide) (by decide)
    have n5 := kwMatches_append_false "DELETE" p r.data _ h (by decide) (by decide)
    have n6 := kwMatches_append_false "CREATE TABLE" p r.data _ h (by decide) (by decide)
    have n7 := kwMatches_append_false "DROP TABLE" p r.data _ h (by decide) (by decide)
    simp [classify, hk, n4, n5, n6, n7]
  · intro h
    have hk := kwMatches_append "UPDATE" p r.data (h.trans (by decide))
    have n5 := kwMatches_append_false "DELETE" p r.data _ h (by decide) (by decide)
    have n6 := kwMatches_append_false "CREATE TABLE" p r.data _ h (by decide) (by decide)
    have n7 := kwMatches_append_false "DROP TABLE" p r.data _ h (by decide) (by decide)
    simp [classify, hk, n5, n6, n7]
  · intro h
    have hk := kwMatches_append "DELETE" p r.data (h.trans (by decide))
    have n6 := kwMatches_append_false "CREATE TABLE" p r.data _ h (by decide) (by decide)
    have n7 := kwMatches_append_false "DROP TABLE" p r.data _ h (by decide) (by decide)
    simp [classify, hk, n6, n7]
  · intro h
    have hk := kwMatches_append "CREATE TABLE" p r.data (h.trans (by decide))
    have n7 := kwMatches_append_false "DROP TABLE" p r.data _ h (by decide) (by decide)
    simp [classify, hk, n7]
  · intro h
    have hk := kwMatches_append "DROP TABLE" p r.data (h.trans (by decide))
    simp [classify, hk]

/-- C2 witness: the routing theorem applied to concrete mixed-case
statements. -/
theorem C2_classify_routing_witness :
    classify (String.mk ("SeLeCt".data ++ " 1 + 1 as sum".data)) = some Method.select ∧
    classify (String.mk ("pRaGmA".data ++ " table_info".data)) = some Method.select ∧
    classify (String.mk ("Insert".data ++ " INTO t VALUES (1)".data)) = some Method.insert ∧
    classify (String.mk ("update".data ++ " t SET x = 1".data)) = some Method.update ∧
    classify (String.mk ("DELETE".data ++ " FROM t".data)) = some Method.delete ∧
    classify (String.mk ("Create Table".data ++ " t (x int)".data)) = some Method.tableCreate ∧
    classify (String.mk ("DROP table".data ++ " t".data)) = some Method.tableDrop ∧
    classify (String.mk (Char.ofNat 32 :: " SELECT 1".data)) = none :=
  ⟨(C2_classify_routing "SeLeCt".data " 1 + 1 as sum").1 (by decide),
   (C2_classify_routing "pRaGmA".data " table_info").2.1 (by decide),
   (C2_classify_routing "Insert".data " INTO t VALUES (1)").2.2.1 (by decide),
   (C2_classify_routing "update".data " t SET x = 1").2.2.2.1 (by decide),
   (C2_classify_routing "DELETE".data " FROM t").2.2.2.2.1 (by decide),
   (C2_classify_routing "Create Table".data " t (x int)").2.2.2.2.2.1 (by decide),
   (C2_classify_routing "DROP table".data " t").2.2.2.2.2.2.1 (by decide),
   (C2_classify_routing [] " SELECT 1").2.2.2.2.2.2.2⟩

/-! ## Concrete fixtures for closed evaluations -/

/-- A backend whose connect succeeds with handle 1 and whose every
statement succeeds with one result row and no last_insert_id, as a read
does. -/
def selBackend : Backend :=
  { connectResult := fun _ => Except.ok 1,
    respond := fun _ _ => Except.ok
      { results := [ { error := none, rows := [[("sum", "2")]], last_insert_id := none } ] } }

/-- A backend whose statements are rejected with a syntax error text. -/
def rejBackend : Backend :=
  { connectResult := fun _ => Except.ok 1,
    respond := fun _ _ => Except.error "near FROM: incomplete input" }

/-- A configuration with a database name and no pre-supplied client. -/
def someCfg : Config := { database := some "db", client := none }

/-- A configuration with no database name. -/
def noDbCfg : Config := { database := none, client := none }

/-- The state after a successful connect and an insert that set the
last-insert-id slot to 5. -/
def connState : State := { client := some 1, connected := true, lastInsertId := some 5 }

/-- C1: the code violates this claim.  A successful non-INSERT dispatch
also overwrites the Last-Insert-Id slot, because the guard
typeof lastId !== undefined compares the string produced by typeof with
the undefined value and is therefore always true.  Evaluated here:
a SELECT dispatched against a backend whose read response carries no
last_insert_id clears the slot from 5 to undefined.  The disconnect part
of the claim does hold: disconnect leaves the slot untouched. -/
theorem C1_select_clobbers_lastInsertId :
    (query someCfg selBackend "SELECT 1" connState).1
        = QueryOutcome.resolved (QueryResult.cursor [[("sum", "2")]]) ∧
    connState.lastInsertId = some 5 ∧
    (query someCfg selBackend "SELECT 1" connState).2.lastInsertId = none ∧
    (disconnect connState).2.lastInsertId = some 5 := by
  decide

/-- C3 counterexample: a statement whose leading keyword matches no
category does not fail with a QueryError: no method is selected, the
TypeError raised by calling undefined is lost on a promise chain without a
catch handler, and the promise returned by query() never settles. -/
theorem C3_unmatched_never_settles_cex :
    (query someCfg selBackend "FOO" connState).1 = QueryOutcome.pending ∧
    ¬ ∃ e, (query someCfg selBackend "FOO" connState).1 = QueryOutcome.rejected e := by
  refine ⟨by decide, ?_⟩
  rintro ⟨e, he⟩
  rw [(by decide : (query someCfg selBackend "FOO" connState).1 = QueryOutcome.pending)] at he
  exact QueryOutcome.noConfusion he

/-- C3 amended: for a connected adapter, a statement whose leading keyword
matches no category makes query() hang (the promise never settles) rather
than fail with a QueryError; for statements that are dispatched, every
failure is delivered with the backend error message verbatim, whether the
dispatch promise rejects or the response body carries an error. -/
theorem C3_unmatched_hangs_and_errors_verbatim (cfg : Config) (b : Backend)
    (sql : String) (s : State) (c : Nat) (hc : s.client = some c) :
    (classify sql = none → query cfg b sql s = (QueryOutcome.pending, s)) ∧
    (∀ m e, classify sql = some m → b.respond m sql = Except.error e →
      query cfg b sql s = (QueryOutcome.rejected e, s)) ∧
    (∀ m res r0 rs e, classify sql = some m → b.respond m sql = Except.ok res →
      res.results = r0 :: rs → getError res.results = some e →
      kwMatches sqliteMasterHead sql = false →
      query cfg b sql s = (QueryOutcome.rejected e, s)) := by
  refine ⟨?_, ?_, ?_⟩
  · intro hcl
    simp [query, connect_existing cfg b s c hc, hcl]
  · intro m e hcl hr
    simp [query, connect_existing cfg b s c hc, hcl, hr]
  · intro m res r0 rs e hcl hr hres hg hmaster
    rw [hres] at hg
    simp [query, connect_existing cfg b s c hc, hcl, hr, hres, hg, hmaster]

/-- C3 witness: the amended theorem applied to the connected state, to an
unmatched statement, to a rejected dispatch, and to an in-body error. -/
theorem C3_unmatched_hangs_and_errors_verbatim_witness :
    query someCfg selBackend "FOO" connState = (QueryOutcome.pending, connState) ∧
    query someCfg rejBackend "SELECT * FROM" connState
      = (QueryOutcome.rejected "near FROM: incomplete input", connState) := by
  constructor
  · exact (C3_unmatched_hangs_and_errors_verbatim someCfg selBackend "FOO"
      connState 1 (by decide)).1 (by decide)
  · exact (C3_unmatched_hangs_and_errors_verbatim someCfg rejBackend "SELECT * FROM"
      connState 1 (by decide)).2.1 Method.select "near FROM: incomplete input"
      (by decide) rfl

/-- C4: connect() is idempotent: with an existing client handle the call
resolves immediately with that exact handle and does not change the state,
and once any connect() call has resolved with handle h, every further
sequential connect() resolves with the same h and the same state, so no
second session is ever opened. -/
theorem C4_connect_idempotent (cfg : Config) (b : Backend) (s s2 : State)
    (c h : Nat) :
    (s.client = some c → connect cfg b s = (Except.ok c, s)) ∧
    (connect cfg b s = (Except.ok h, s2) → connect cfg b s2 = (Except.ok h, s2)) := by
  constructor
  · intro hc
    exact connect_existing cfg b s c hc
  · intro hcon
    unfold connect at hcon
    cases hsc : s.client with
    | some c0 =>
      rw [hsc] at hcon
      rw [Prod.mk.injEq, Except.ok.injEq] at hcon
      obtain ⟨he, hs2⟩ := hcon
      subst he
      subst hs2
      exact connect_existing cfg b s c0 hsc
    | none =>
      rw [hsc] at hcon
      by_cases hdb : falsyDatabase cfg.database
      · rw [if_pos hdb] at hcon
        exact absurd (congrArg Prod.fst hcon) (by simp)
      · rw [if_neg hdb] at hcon
        cases hres : b.connectResult (cfg.database.getD "") with
        | ok api =>
          rw [hres, Prod.mk.injEq, Except.ok.injEq] at hcon
          obtain ⟨he, hs2⟩ := hcon
          subst he
          subst hs2
          exact connect_existing cfg b _ api rfl
        | error e =>
          rw [hres] at hcon
          exact absurd (congrArg Prod.fst hcon) (by simp)

/-- C4 witness: a first connect on a fresh adapter yields handle 1, and the
theorem then gives the same handle and unchanged state for the next call. -/
theorem C4_connect_idempotent_witness :
    connect someCfg selBackend
        { client := some 1, connected := true, lastInsertId := none }
      = (Except.ok 1, { client := some 1, connected := true, lastInsertId := none }) :=
  (C4_connect_idempotent someCfg selBackend (initState someCfg)
    { client := some 1, connected := true, lastInsertId := none } 0 1).2 rfl

/-- C5 counterexample: the error message of a connect() without a database
name is the string Error, no database name has been configured. (a plain
Error whose text begins with the word Error), not the exact text the claim
states. -/
theorem C5_error_message_cex :
    (connect noDbCfg selBackend (initState noDbCfg)).1
        = Except.error "Error, no database name has been configured." ∧
    (Except.error "Error, no database name has been configured." : Except String Nat)
        ≠ Except.error "no database name has been configured" := by
  refine ⟨rfl, ?_⟩
  intro h
  injection h with h2
  exact absurd h2 (by decide)

/-- C5 amended: with no client handle and no (or an empty) database name,
connect() rejects with the message Error, no database name has been
configured. — which contains the configured phrase — leaves the state
unchanged (flag and handle untouched), and performs no I/O: the result
does not depend on the backend at all. -/
theorem C5_no_database_rejects (cfg : Config) (b : Backend) (s : State)
    (hc : s.client = none) (hdb : falsyDatabase cfg.database = true) :
    connect cfg b s = (Except.error "Error, no database name has been configured.", s) ∧
    (∀ b2 : Backend, connect cfg b2 s = connect cfg b s) := by
  constructor
  · simp [connect, hc, hdb]
  · intro b2
    simp [connect, hc, hdb]

/-- C5 witness: the amended theorem applied to the fresh no-database
adapter. -/
theorem C5_no_database_rejects_witness :
    connect noDbCfg selBackend (initState noDbCfg)
      = (Except.error "Error, no database name has been configured.", initState noDbCfg) :=
  (C5_no_database_rejects noDbCfg selBackend (initState noDbCfg) rfl rfl).1

/-- C6 counterexample: disconnect() does not close the underlying session:
the this._client.close() call is commented out in the source, so on a
connected state no close call is made to the client. -/
theorem C6_no_close_cex :
    ClientCall.close ∉ disconnectClientCalls connState := by
  decide

/-- C6 amended: disconnect() drops the client handle reference if present
(without closing the underlying session: that call is commented out) and
clears both handle and connectivity flag; it returns true even when no
handle exists, so two successive disconnects both report success, and
after any disconnect the flag is false and the client absent. -/
theorem C6_disconnect_clears (s : State) (hInv : Inv s) :
    (disconnect s).1 = true ∧
    (disconnect s).2.client = none ∧
    (disconnect s).2.connected = false ∧
    (disconnect (disconnect s).2).1 = true ∧
    disconnectClientCalls s = [] := by
  cases hsc : s.client with
  | some c =>
    refine ⟨?_, ?_, ?_, ?_, rfl⟩ <;> simp [disconnect, hsc]
  | none =>
    have hcf : s.connected = false := by
      cases hcon : s.connected
      · rfl
      · have := hInv hcon
        rw [hsc] at this
        exact absurd this (by simp)
    refine ⟨?_, ?_, ?_, ?_, rfl⟩ <;> simp [disconnect, hsc, hcf]

/-- C6 witness: the amended theorem applied to the connected state and to
the fresh state. -/
theorem C6_disconnect_clears_witness :
    (disconnect connState).1 = true ∧
    (disconnect connState).2.client = none ∧
    (disconnect (initState someCfg)).1 = true :=
  ⟨(C6_disconnect_clears connState (by intro h; decide)).1,
   (C6_disconnect_clears connState (by intro h; decide)).2.1,
   (C6_disconnect_clears (initState someCfg) (by intro h; simp [initState, someCfg] at h)).1⟩

/-- C7: the connectivity invariant (flag true implies handle present)
holds after construction and is preserved by connect (successful or not),
by disconnect and by query; the flag starts false, is brought to false by
every disconnect, and is raised only by a connect call that succeeded. -/
theorem C7_connectivity_invariant (cfg : Config) (b : Backend) (sql : String)
    (s : State) :
    Inv (initState cfg) ∧
    (initState cfg).connected = false ∧
    (Inv s → Inv (connect cfg b s).2) ∧
    (Inv s → Inv (disconnect s).2) ∧
    (Inv s → Inv (query cfg b sql s).2) ∧
    (Inv s → (disconnect s).2.connected = false) ∧
    (s.connected = false → (connect cfg b s).2.connected = true →
      ∃ hd, (connect cfg b s).1 = Except.ok hd) := by
  have hconn : Inv s → Inv (connect cfg b s).2 := by
    intro hInv
    unfold connect
    cases hsc : s.client with
    | some c => exact hInv
    | none =>
      by_cases hdb : falsyDatabase cfg.database
      · simpa [hdb] using hInv
      · cases hres : b.connectResult (cfg.database.getD "") with
        | ok api => intro _; simp [hdb]
        | error e => simpa [hdb] using hInv
  have hdisc : Inv s → Inv (disconnect s).2 := by
    intro hInv
    unfold disconnect
    cases hsc : s.client with
    | some c => intro h; simp at h
    | none => exact hInv
  refine ⟨?_, rfl, hconn, hdisc, ?_, ?_, ?_⟩
  · intro h
    simp [initState] at h
  · intro hInv
    obtain ⟨li, hq⟩ := query_state_shape cfg b sql s
    rw [Inv, hq]
    intro hcq
    exact hconn hInv hcq
  · intro hInv
    unfold disconnect
    cases hsc : s.client with
    | some c => simp
    | none =>
      cases hcon : s.connected with
      | false => rfl
      | true =>
        have := hInv hcon
        rw [hsc] at this
        exact absurd this (by simp)
  · intro hcf htrue
    unfold connect at htrue ⊢
    cases hsc : s.client with
    | some c => exact ⟨c, rfl⟩
    | none =>
      rw [hsc] at htrue
      by_cases hdb : falsyDatabase cfg.database
      · rw [if_pos hdb] at htrue
        simp [hcf] at htrue
      · rw [if_neg hdb] at htrue
        rw [if_neg hdb]
        cases hres : b.connectResult (cfg.database.getD "") with
        | ok api => exact ⟨api, rfl⟩
        | error e =>
          rw [hres] at htrue
          simp [hcf] at htrue

/-- C7 witness: the invariant theorem applied to the connected state. -/
theorem C7_connectivity_invariant_witness :
    Inv (query someCfg selBackend "SELECT 1" connState).2 :=
  (C7_connectivity_invariant someCfg selBackend "SELECT 1" connState).2.2.2.2.1
    (by intro h; decide)

/-- The quote-stripping regex on a default of the form
quote-content-quote whose content holds no line terminator: the greedy
group is exactly the content. -/
theorem matchOuterQuotes_eq (t : List Char)
    (hterm : ∀ ch ∈ t, isLineTerm ch = false) :
    matchOuterQuotes (squote :: (t ++ [squote])) = some t := by
  have hall : ∀ ch ∈ t ++ [squote], (!(isLineTerm ch)) = true := by
    intro ch hch
    rcases List.mem_append.mp hch with hm | hm
    · simp [hterm ch hm]
    · simp at hm
      subst hm
      decide
  have hrun : (t ++ [squote]).takeWhile (fun ch => !(isLineTerm ch)) = t ++ [squote] :=
    List.takeWhile_eq_self_iff.mpr hall
  simp [matchOuterQuotes, hrun, List.dropWhile_cons]

/-- A raw string column whose quoted default contains a line feed. -/
def nlCol : RawColumn :=
  { name := "note", type := "varchar(32)",
    dflt_value := some (String.mk (squote :: 'a' :: Char.ofNat 10 :: 'b' :: [squote])),
    notnull := 0 }

/-- C8 counterexample: quote stripping does not happen for every quoted
string default: the dot of the JS regex does not match line terminators,
so on the default quote-a-LF-b-quote the pattern fails and the default is
left unchanged, quotes included, instead of being stripped. -/
theorem C8_newline_default_not_stripped_cex :
    (processColumn "string" nlCol).dflt
        = JSVal.str (String.mk (squote :: 'a' :: Char.ofNat 10 :: 'b' :: [squote])) ∧
    (processColumn "string" nlCol).dflt
        ≠ JSVal.str (String.mk ('a' :: Char.ofNat 10 :: ['b'])) := by
  decide

/-- C8 amended: the per-column normalization of fields(): a string default
written as a quoted literal whose content holds no line terminator has the
surrounding quotes stripped (a default whose quotes span a line terminator
fails the regex and stays unchanged); a boolean default becomes a real
boolean that is true exactly when the literal is 1; a datetime default
equal to CURRENT_TIMESTAMP is reported as null; the nullability flag is
the inversion of the backend not-null flag. -/
theorem C8_fields_normalization (col : RawColumn) (lt : String) (t : List Char) :
    (col.dflt_value = some (String.mk (squote :: (t ++ [squote]))) →
      (∀ ch ∈ t, isLineTerm ch = false) →
      (processColumn "string" col).dflt = JSVal.str (String.mk t)) ∧
    ((processColumn "boolean" col).dflt = JSVal.bool (col.dflt_value == some "1")) ∧
    ((processColumn "boolean" col).dflt = JSVal.bool true ↔ col.dflt_value = some "1") ∧
    (col.dflt_value = some "CURRENT_TIMESTAMP" →
      (processColumn "datetime" col).dflt = JSVal.null) ∧
    ((col.notnull = 0 ∨ col.notnull = 1) →
      ((processColumn lt col).nullable = true ↔ ¬ col.notnull = 1)) := by
  refine ⟨?_, ?_, ?_, ?_, ?_⟩
  · intro h hterm
    simp [processColumn, normalizeDefault, h, matchOuterQuotes_eq t hterm]
  · simp [processColumn, normalizeDefault]
  · simp [processColumn, normalizeDefault]
  · intro h
    simp [processColumn, normalizeDefault, h]
  · rintro (h | h) <;> simp [processColumn, h]

/-- A raw string column with default quote-Johnny Boy-quote. -/
def strCol : RawColumn :=
  { name := "name", type := "varchar(128)",
    dflt_value := some (String.mk (squote :: ("Johnny Boy".data ++ [squote]))),
    notnull := 0 }

/-- A raw boolean column with default literal 1. -/
def boolCol : RawColumn :=
  { name := "active", type := "boolean", dflt_value := some "1", notnull := 0 }

/-- A raw datetime column defaulting to the current-timestamp sentinel. -/
def dtCol : RawColumn :=
  { name := "created", type := "timestamp",
    dflt_value := some "CURRENT_TIMESTAMP", notnull := 1 }

/-- C8 witness: the normalization theorem applied to concrete columns. -/
theorem C8_fields_normalization_witness :
    (processColumn "string" strCol).dflt = JSVal.str (String.mk "Johnny Boy".data) ∧
    (processColumn "boolean" boolCol).dflt = JSVal.bool true ∧
    (processColumn "datetime" dtCol).dflt = JSVal.null ∧
    ((processColumn "integer" dtCol).nullable = true ↔ ¬ dtCol.notnull = 1) :=
  ⟨(C8_fields_normalization strCol "x" "Johnny Boy".data).1 rfl (by decide),
   ((C8_fields_normalization boolCol "x" []).2.2.1).mpr rfl,
   (C8_fields_normalization dtCol "x" []).2.2.2.1 rfl,
   (C8_fields_normalization dtCol "integer" []).2.2.2.2 (Or.inr rfl)⟩

/-- C9: execute(sql) invokes query(sql), whose state effects happen, but
returns undefined instead of the promise, for every statement; hence
openTransaction, which returns this.execute of BEGIN TRANSACTION, also
evaluates to undefined, and no caller of execute can observe the
statement outcome, result or failure. -/
theorem C9_execute_returns_undefined (cfg : Config) (b : Backend)
    (sql : String) (s : State) :
    (execute cfg b sql s).1 = ExecReturn.undefined ∧
    (execute cfg b sql s).2 = (query cfg b sql s).2 ∧
    openTransaction cfg b s = execute cfg b "BEGIN TRANSACTION" s ∧
    (openTransaction cfg b s).1 = ExecReturn.undefined :=
  ⟨rfl, rfl, rfl, rfl⟩

/-- The connected state with the last-insert-id slot holding 7. -/
def mState : State := { client := some 1, connected := true, lastInsertId := some 7 }

/-- C10 counterexample: for the sqlite_master introspection statement the
promise does resolve with the raw plain-JS value, but the subsequent
invocation of the normal response path is not a no-op: although it cannot
re-settle the promise, it still overwrites the Last-Insert-Id slot, here
from 7 to undefined. -/
theorem C10_master_slot_update_cex :
    (query someCfg selBackend sqliteMasterHead mState).1
        = QueryOutcome.resolved (QueryResult.raw [[("sum", "2")]]) ∧
    mState.lastInsertId = some 7 ∧
    (query someCfg selBackend sqliteMasterHead mState).2.lastInsertId = none := by
  decide

/-- C10 amended: for every statement beginning with the sqlite_master
introspection text, a successful query() resolves with the raw plain-JS
results value, not with a Cursor, and this holds even when the response
body carries an error (the later reject cannot re-settle the promise);
the subsequent run of the normal response path can no longer touch the
settled promise but does update the Last-Insert-Id slot on success. -/
theorem C10_master_raw_results (cfg : Config) (b : Backend) (sql : String)
    (s : State) (c : Nat) (res : BackendResponse) (r0 : BackendResult)
    (rs : List BackendResult)
    (hc : s.client = some c)
    (hm : kwMatches sqliteMasterHead sql = true)
    (hresp : b.respond Method.select sql = Except.ok res)
    (hres : res.results = r0 :: rs) :
    (getError res.results = none →
      query cfg b sql s
        = (QueryOutcome.resolved (QueryResult.raw (toPlainJs res.results)),
           { s with lastInsertId := r0.last_insert_id })) ∧
    (∀ e, getError res.results = some e →
      query cfg b sql s
        = (QueryOutcome.resolved (QueryResult.raw (toPlainJs res.results)), s)) := by
  have hcl := classify_of_master sql hm
  constructor
  · intro herr
    rw [hres] at herr
    simp [query, connect_existing cfg b s c hc, hcl, hresp, hres, herr, hm]
  · intro e herr
    rw [hres] at herr
    simp [query, connect_existing cfg b s c hc, hcl, hresp, hres, herr, hm]

/-- C10 witness: the amended theorem applied to the concrete introspection
query against the read backend. -/
theorem C10_master_raw_results_witness :
    query someCfg selBackend sqliteMasterHead mState
      = (QueryOutcome.resolved (QueryResult.raw [[("sum", "2")]]),
         { client := some 1, connected := true, lastInsertId := none }) := by
  have h := (C10_master_raw_results someCfg selBackend sqliteMasterHead mState 1
    { results := [ { error := none, rows := [[("sum", "2")]], last_insert_id := none } ] }
    { error := none, rows := [[("sum", "2")]], last_insert_id := none } []
    rfl (by decide) rfl rfl).1 rfl
  simpa using h

end RqliteAdapter
